import Mathlib

/-!
Verification of the NYC-Taxi ingest-and-trigger pipeline
(`lambda/ingestion.py` and `lambda/processing_trigger.py`) against its
natural-language specification.

The two Lambda handlers are shallowly embedded as pure Lean functions.
External collaborators (S3, CloudWatch, the HTTP source, Secrets Manager,
the Databricks API) are modelled as oracle inputs describing the response
each call would produce; the handlers' observable behaviour (returned
result, metric emissions, sleeps, attempt counts) is collected in trace
records.  Durations are abstract `Nat` time units.
-/

set_option autoImplicit false

/-! ## Fetcher (`ingestion.py`) -/

/-- Response of `s3_client.head_object` as seen through boto3's contract:
either the call succeeds or it raises a `ClientError` carrying an error
code string (`e.response['Error']['Code']`). -/
inductive HeadObjectResult where
  | ok
  | clientError (code : String)
  deriving DecidableEq

/-- `file_exists_in_s3` (ingestion.py:59-74): `head_object` success returns
`True`; a `ClientError` with code `'404'` returns `False`; any other
`ClientError` code is logged and also returns `False`.  Totality of this
function is the embedding of "never throws". -/
def file_exists_in_s3 : HeadObjectResult → Bool
  | .ok => true
  | .clientError code => if code = "404" then false else false

/-- Behaviour of one iteration of the download loop in `process_month`
(ingestion.py:90-141), as decided by the external world:
* `ok size upDur totDur`: `requests.get` and `upload_fileobj` both succeed;
  `size` is the `content-length`, `upDur` the upload sub-duration and
  `totDur` the whole attempt's duration (`time.time() - attempt_start`);
* `transportError dur`: `requests.get`/`raise_for_status` raises a
  `requests.exceptions.RequestException` after `dur` time units;
* `storageError dur`: the download succeeds but `upload_fileobj` raises a
  non-`RequestException` error, `dur` time units into the attempt. -/
inductive AttemptOutcome where
  | ok (size upDur totDur : Nat)
  | transportError (dur : Nat)
  | storageError (dur : Nat)
  deriving DecidableEq

/-- Arguments of one `send_performance_metrics` call
(ingestion.py:150): download duration, upload duration, file size, and
the success flag. -/
structure PerfBatch where
  downloadDuration : Nat
  uploadDuration : Nat
  fileSize : Nat
  success : Bool
  deriving DecidableEq

/-- Observable trace of one `process_month` call: its return value
(`True` on success, `False` after the outer `except` block), the
`send_performance_metrics` calls made, the `time.sleep` durations, and how
many loop iterations started. -/
structure PMTrace where
  result : Bool
  perfBatches : List PerfBatch
  sleeps : List Nat
  attemptsMade : Nat
  deriving DecidableEq

/-- The `for attempt in range(3)` loop of `process_month`
(ingestion.py:90-148), with the surrounding `try/except` (lines 87 and
143-148).  `fuel` is the number of loop iterations remaining (3 at entry),
`attempt` the 0-based loop index, `clock` the elapsed time since
`start_time`.
* success: perf metrics are sent with `success=True` and the function
  returns `True` (lines 121-131);
* transport error on the last iteration (`attempt == 2`): failure perf
  metrics with the attempt's duration are sent, then `raise` re-raises
  into the outer `except`, which sends a second failure batch with
  `error_duration = time.time() - start_time` and returns `False`
  (lines 138-140, 143-148);
* transport error earlier: `time.sleep(2 ** attempt)` and the loop
  continues (line 141);
* storage error: the exception is not a `RequestException`, so it skips
  the inner handler and lands in the outer `except`: one failure batch
  with `error_duration`, return `False`. -/
def pmLoop (oc : Nat → AttemptOutcome) : Nat → Nat → Nat → PMTrace
  | 0, _, _ => ⟨false, [], [], 0⟩
  | fuel + 1, attempt, clock =>
    match oc attempt with
    | .ok size upDur totDur =>
        ⟨true, [⟨totDur, upDur, size, true⟩], [], attempt + 1⟩
    | .storageError d =>
        ⟨false, [⟨clock + d, 0, 0, false⟩], [], attempt + 1⟩
    | .transportError d =>
        if attempt = 2 then
          ⟨false, [⟨d, 0, 0, false⟩, ⟨clock + d, 0, 0, false⟩], [], attempt + 1⟩
        else
          let rest := pmLoop oc fuel (attempt + 1) (clock + d + 2 ^ attempt)
          ⟨rest.result, rest.perfBatches, 2 ^ attempt :: rest.sleeps, rest.attemptsMade⟩

/-- `process_month` (ingestion.py:76-148) on a given world `oc`:
the loop runs for at most `range(3)` iterations starting at attempt 0 and
`start_time` clock 0. -/
def process_month (oc : Nat → AttemptOutcome) : PMTrace :=
  pmLoop oc 3 0 0

/-- The three overall job signals `put_skipped_metric`,
`put_success_metric`, `put_failure_metric` emit (each is one best-effort
`put_metric_data` call whose own errors are swallowed). -/
inductive Signal where
  | skipped
  | success
  | failure
  deriving DecidableEq

/-- A Python runtime error escaping the handler. -/
inductive PyErr where
  | typeError
  deriving DecidableEq

/-- Structured handler result: status code and body. -/
structure Resp where
  statusCode : Nat
  body : String
  deriving DecidableEq

/-- Trace of one Fetcher `lambda_handler` invocation.  `outcome` is
`.error e` when an exception escapes the handler, `.ok none` when the
function falls off its end (Python returns `None`), `.ok (some r)` for a
structured return. -/
structure HandlerTrace where
  outcome : Except PyErr (Option Resp)
  signals : List Signal
  perfBatches : List PerfBatch
  sleeps : List Nat
  attemptsMade : Nat

/-- Behaviour of the `file_exists_in_s3` probe's `head_object` call inside
the handler's top-level `try`: either the storage client responds (success
or `ClientError`, both handled inside `file_exists_in_s3`), or it raises
some non-`ClientError` exception (connection failure etc.), which
`file_exists_in_s3` does not catch and which therefore reaches the
handler's top-level `except`. -/
inductive ProbeBehavior where
  | responds (r : HeadObjectResult)
  | raises (msg : String)

/-- Number of parameters of `def put_failure_metric(cloudwatch, year,
month)` (ingestion.py:245). -/
def put_failure_metric_paramCount : Nat := 3

/-- Number of arguments in the call `put_failure_metric(cloudwatch)` in
the handler's `except` block (ingestion.py:53). -/
def handler_failure_call_argCount : Nat := 1

/-- The handler's top-level `except Exception` block (ingestion.py:51-57):
it calls `put_failure_metric(cloudwatch)`.  In Python, a call whose
argument count does not match the callee's required parameters raises
`TypeError` at the call site; raised inside an `except` block, it
propagates out of the handler.  Were the arities to match, the block would
emit the failure signal and return the structured 500 result. -/
def ingestion_except_block (msg : String) : Except PyErr (Option Resp) × List Signal :=
  if handler_failure_call_argCount = put_failure_metric_paramCount then
    (.ok (some ⟨500, "Unexpected error: " ++ msg⟩), [.failure])
  else
    (.error .typeError, [])

/-- Fetcher `lambda_handler` (ingestion.py:12-57), after the target period
has been resolved to the strings `year` and `month`:
* probe raises → top-level `except` block;
* `file_exists_in_s3` returns `True` → `put_skipped_metric`, return 200;
* otherwise `process_month`; on `True` → `put_success_metric`, return 200;
  on `False` → the `if` is not taken and the function falls off its end,
  returning `None` (there is no statement after the `if` block). -/
def ingestion_handler (year month : String) (probe : ProbeBehavior)
    (oc : Nat → AttemptOutcome) : HandlerTrace :=
  match probe with
  | .raises msg =>
      let eb := ingestion_except_block msg
      ⟨eb.1, eb.2, [], [], 0⟩
  | .responds r =>
      if file_exists_in_s3 r then
        ⟨.ok (some ⟨200, "Data already exists for " ++ year ++ "-" ++ month⟩),
          [.skipped], [], [], 0⟩
      else
        let t := process_month oc
        if t.result then
          ⟨.ok (some ⟨200, "Successfully processed " ++ year ++ "-" ++ month⟩),
            [.success], t.perfBatches, t.sleeps, t.attemptsMade⟩
        else
          ⟨.ok none, [], t.perfBatches, t.sleeps, t.attemptsMade⟩

/-! ### Storage key layout (C8) -/

/-- Decimal digit list of a natural number, least to most significant
order reversed, i.e. most significant first: the embedding of Python's
`str(n)` for non-negative `n` (ingestion.py:28 `str(target_date.year)`,
line 29 `str(target_date.month)`). -/
def natStrAux (n : Nat) : List Char :=
  if _h : n < 10 then [Nat.digitChar n]
  else natStrAux (n / 10) ++ [Nat.digitChar (n % 10)]
  termination_by n
  decreasing_by
    exact Nat.div_lt_self (by omega) (by omega)

/-- Python `str(n)` for a natural number. -/
def natStr (n : Nat) : String := ⟨natStrAux n⟩

/-- Python `s.zfill(w)`: left-pad with `'0'` to width `w`
(ingestion.py:29 `.zfill(2)`). -/
def zfill (w : Nat) (s : String) : String :=
  ⟨List.replicate (w - s.data.length) '0' ++ s.data⟩

/-- The file name template `f"yellow_tripdata_{year}-{month}.parquet"`
(ingestion.py:61, 78). -/
def s3_file_name (year month : String) : String :=
  "yellow_tripdata_" ++ year ++ "-" ++ month ++ ".parquet"

/-- The key template `f"{prefix}year={year}/month={month}/{file_name}"`
(ingestion.py:62, 80); `pre` is the environment-provided `s3_prefix`. -/
def s3_key (pre year month : String) : String :=
  pre ++ "year=" ++ year ++ "/month=" ++ month ++ "/" ++ s3_file_name year month

/-- The storage location of a period `(y, m)`: the handler formats
`year = str(y)` and `month = str(m).zfill(2)` (ingestion.py:28-29) and
builds the key from them. -/
def periodKey (pre : String) (y m : Nat) : String :=
  s3_key pre (natStr y) (zfill 2 (natStr m))

/-! ## Trigger (`processing_trigger.py`) -/

/-- The EventBridge notification after the two `detail.get(...)` chains
(processing_trigger.py:26-28): each field is `none` when the event lacks
it (Python `None`). -/
structure TriggerEvent where
  bucket : Option String
  key : Option String

/-- Python truthiness of `bucket` / `key` as used by
`if not bucket or not key` (line 30): `None` and the empty string are
falsy. -/
def truthy : Option String → Bool
  | none => false
  | some s => !s.isEmpty

/-- Python `pat in s` substring test on the key's characters
(line 40, `'yellow_tripdata' not in key`). -/
def containsPat (pat : List Char) : List Char → Bool
  | [] => pat.isEmpty
  | c :: cs => pat.isPrefixOf (c :: cs) || containsPat pat cs

/-- Python `key.endswith('.parquet')` (line 40). -/
def endsParquet (key : List Char) : Bool :=
  (".parquet".data).isSuffixOf key

/-- `re.search(r'year=(\d{4})', key)` tried at one position: the literal
`year=` followed by four digits; returns the captured digit group
(processing_trigger.py:48). -/
def matchYearAt : List Char → Option (List Char)
  | 'y' :: 'e' :: 'a' :: 'r' :: '=' :: d1 :: d2 :: d3 :: d4 :: _ =>
      if d1.isDigit && d2.isDigit && d3.isDigit && d4.isDigit then
        some [d1, d2, d3, d4]
      else none
  | _ => none

/-- `re.search` scans left to right for the first position where the
pattern matches. -/
def searchYear : List Char → Option (List Char)
  | [] => none
  | c :: cs =>
    match matchYearAt (c :: cs) with
    | some g => some g
    | none => searchYear cs

/-- `re.search(r'month=(\d{2})', key)` tried at one position
(processing_trigger.py:49). -/
def matchMonthAt : List Char → Option (List Char)
  | 'm' :: 'o' :: 'n' :: 't' :: 'h' :: '=' :: d1 :: d2 :: _ =>
      if d1.isDigit && d2.isDigit then some [d1, d2] else none
  | _ => none

/-- Left-to-right scan for the month pattern. -/
def searchMonth : List Char → Option (List Char)
  | [] => none
  | c :: cs =>
    match matchMonthAt (c :: cs) with
    | some g => some g
    | none => searchMonth cs

/-- Behaviour of the Secrets Manager round trip inside
`get_databricks_token` (processing_trigger.py:164-175): either the secret
is retrieved and holds a token, or the retrieval raises with some
message. -/
inductive SecretFetch where
  | ok (token : String)
  | fails (msg : String)

/-- Response of the `requests.post` call to the Databricks API
(processing_trigger.py:152): HTTP status, the `run_id` field of the JSON
body when present (`result.get('run_id')` yields `None` when absent), and
`response.text`. -/
structure ApiResponse where
  status : Nat
  runId : Option Nat
  text : String

/-- Error message raised by `get_databricks_token` on a retrieval failure
(processing_trigger.py:175). -/
def credentialErrMsg (msg : String) : String :=
  "Failed to retrieve Databricks token: " ++ msg

/-- Error message raised by `trigger_databricks_job` on a non-200 status
(processing_trigger.py:160). -/
def apiErrMsg (st : Nat) (text : String) : String :=
  "Databricks API error: " ++ toString st ++ " - " ++ text

/-- `get_databricks_token` (processing_trigger.py:164-175): wraps any
retrieval failure in a new exception with the fixed message. -/
def get_databricks_token : SecretFetch → Except String String
  | .ok t => .ok t
  | .fails m => .error (credentialErrMsg m)

/-- `trigger_databricks_job` (processing_trigger.py:114-162): fetch the
token, POST to the run-now endpoint, and on `response.status_code == 200`
return `result.get('run_id')`; any other status raises with the status
and body. -/
def trigger_databricks_job (secret : SecretFetch) (resp : ApiResponse) :
    Except String (Option Nat) :=
  match get_databricks_token secret with
  | .error e => .error e
  | .ok _ =>
    if resp.status = 200 then .ok resp.runId
    else .error (apiErrMsg resp.status resp.text)

/-- Whether the HTTP POST to the API was actually performed: the token
fetch precedes the call, so a credential failure means zero API calls. -/
def apiAttempts : SecretFetch → Nat
  | .ok _ => 1
  | .fails _ => 0

/-- One CloudWatch metric emission by `send_cloudwatch_metric`:
name and dimensions (name/value pairs). -/
structure Metric where
  name : String
  dims : List (String × String)
  deriving DecidableEq

/-- Python `str(e)[:50]` (processing_trigger.py:101): the first 50
characters. -/
def truncate50 (s : String) : String := ⟨s.data.take 50⟩

/-- The success metric (processing_trigger.py:67-76). -/
def jobTriggeredMetric (y m : String) : Metric :=
  ⟨"JobTriggered", [("Year", y), ("Month", m), ("Status", "Success")]⟩

/-- The failure metric with the truncated error string
(processing_trigger.py:97-102). -/
def jobTriggerFailedMetric (e : String) : Metric :=
  ⟨"JobTriggerFailed", [("Error", truncate50 e)]⟩

/-- Which JSON body the Trigger handler returns. -/
inductive TBody where
  | invalidEvent
  | notYellow
  | noPeriod
  | triggered (runId : Option Nat) (year month : String)
  | failed (errMsg : String)

/-- Observable trace of one Trigger `lambda_handler` invocation: the
structured result, the number of Secrets Manager round trips, the number
of Databricks API calls, and the metrics emitted. -/
structure TriggerTrace where
  statusCode : Nat
  body : TBody
  credFetches : Nat
  apiCalls : Nat
  metrics : List Metric

/-- Trigger `lambda_handler` (processing_trigger.py:13-112):
* missing or empty bucket/key → 400 `'Invalid event structure'`;
* key without the `yellow_tripdata` marker or the `.parquet` suffix →
  200 no-op;
* no `year=DDDD` or no `month=DD` segment → 400;
* otherwise `trigger_databricks_job`; success → `JobTriggered` metric and
  a 200 body carrying `run_id`; any raised failure is caught by the
  top-level `except`, emits `JobTriggerFailed` with the truncated error
  string, and returns 500. -/
def trigger_handler (ev : TriggerEvent) (secret : SecretFetch)
    (resp : ApiResponse) : TriggerTrace :=
  if !(truthy ev.bucket) || !(truthy ev.key) then
    ⟨400, .invalidEvent, 0, 0, []⟩
  else
    let key := (ev.key.getD "").data
    if !(containsPat ("yellow_tripdata".data) key) || !(endsParquet key) then
      ⟨200, .notYellow, 0, 0, []⟩
    else
      match searchYear key, searchMonth key with
      | some y, some m =>
        (match trigger_databricks_job secret resp with
         | .ok rid =>
             ⟨200, .triggered rid ⟨y⟩ ⟨m⟩, 1, 1,
               [jobTriggeredMetric ⟨y⟩ ⟨m⟩]⟩
         | .error e =>
             ⟨500, .failed e, 1, apiAttempts secret,
               [jobTriggerFailedMetric e]⟩)
      | _, _ => ⟨400, .noPeriod, 0, 0, []⟩

/-- A concrete well-formed notification used to exercise the valid path:
the key layout `ingestion.py` writes. -/
def evOK : TriggerEvent :=
  ⟨some "nyc-taxi-bucket",
   some "nyctaxi/raw/year=2024/month=01/yellow_tripdata_2024-01.parquet"⟩

/-! ## Auxiliary definitions for the proofs -/

/-- Value of a decimal digit string, most significant digit first: the
left inverse used to prove `natStrAux` injective. -/
def digitsVal (l : List Char) : Nat :=
  l.foldl (fun a c => a * 10 + (c.toNat - 48)) 0

/-- The year component of the storage key: `str(year)`. -/
def yearChars (y : Nat) : List Char := natStrAux y

/-- The month component of the storage key: `str(month).zfill(2)`. -/
def monthChars (m : Nat) : List Char :=
  List.replicate (2 - (natStrAux m).length) '0' ++ natStrAux m

/-- World where the storage write fails on the very first attempt. -/
def ocStorageFirst : Nat → AttemptOutcome
  | 0 => .storageError 9
  | _ => .ok 0 0 0

/-- World with a transport failure on attempt 1 and a storage failure on
attempt 2. -/
def ocMix : Nat → AttemptOutcome
  | 0 => .transportError 4
  | 1 => .storageError 9
  | _ => .ok 0 0 0

/-! ## Theorems -/

/-- C7: `file_exists_in_s3` is a total Boolean function of the storage
response (never throws): a 404 `ClientError` yields `false`, any other
`ClientError` code also yields `false` (fail-open), and it yields `true`
exactly when the metadata query succeeds. -/
theorem c7_file_exists_fail_open :
    (∀ c : String, file_exists_in_s3 (.clientError c) = false) ∧
    (∀ r : HeadObjectResult, file_exists_in_s3 r = true ↔ r = .ok) := by
  constructor
  · intro c
    simp [file_exists_in_s3]
  · intro r
    cases r <;> simp [file_exists_in_s3]

/-- C6: whenever the existence probe returns `true`, the Fetcher handler
attempts no download (zero loop iterations, no performance batches, no
sleeps), emits exactly one `skipped` signal, and returns the structured
200 result. -/
theorem c6_skip_on_existing (year month : String) (r : HeadObjectResult)
    (oc : Nat → AttemptOutcome) (h : file_exists_in_s3 r = true) :
    ingestion_handler year month (.responds r) oc =
      ⟨.ok (some ⟨200, "Data already exists for " ++ year ++ "-" ++ month⟩),
        [.skipped], [], [], 0⟩ := by
  simp [ingestion_handler, h]

/-- Witness for C6 at the concrete probe response `ok`. -/
theorem c6_witness :
    file_exists_in_s3 .ok = true ∧
    ingestion_handler "2024" "01" (.responds .ok) (fun _ => .ok 0 0 0) =
      ⟨.ok (some ⟨200, "Data already exists for 2024-01"⟩), [.skipped], [], [], 0⟩ :=
  ⟨rfl, c6_skip_on_existing "2024" "01" .ok (fun _ => .ok 0 0 0) rfl⟩

/-- C1 (code bug): when the top-level `try` block raises, the `except`
block's call `put_failure_metric(cloudwatch)` supplies 1 argument to a
function requiring 3, so it raises `TypeError`, which propagates past the
handler boundary; no failure signal is emitted and no structured 500
result is returned — contrary to the claim (and to the evident intent of
the `except` block). -/
theorem c1_uncaught_exception_propagates (year month msg : String)
    (oc : Nat → AttemptOutcome) :
    handler_failure_call_argCount ≠ put_failure_metric_paramCount ∧
    (ingestion_handler year month (.raises msg) oc).outcome = .error .typeError ∧
    (ingestion_handler year month (.raises msg) oc).signals = [] :=
  ⟨by decide, rfl, rfl⟩

/-- C2 (code bug): with a transport failure on all three attempts
(durations `d 0`, `d 1`, `d 2`), `process_month` emits TWO failure
performance batches — one with the last attempt's duration and a second
with the total elapsed duration (attempts plus the 1- and 2-unit backoff
sleeps) — and returns `False`, whereupon `lambda_handler` falls off the
end of its `try` block and returns `None`: no status code and no failure
result, contrary to the claim. -/
theorem c2_all_transport_failures (year month : String) (d : Nat → Nat) :
    ingestion_handler year month (.responds (.clientError "404"))
        (fun n => .transportError (d n)) =
      ⟨.ok none, [],
        [⟨d 2, 0, 0, false⟩, ⟨d 0 + 1 + d 1 + 2 + d 2, 0, 0, false⟩],
        [1, 2], 3⟩ := by
  simp [ingestion_handler, file_exists_in_s3, process_month, pmLoop]

/-- The download loop never starts more iterations than it has fuel for:
with fuel `f` and 0-based loop index `attempt`, at most `attempt + f`
attempts are ever recorded. -/
theorem pmLoop_attempts_le (oc : Nat → AttemptOutcome) :
    ∀ fuel attempt clock, (pmLoop oc fuel attempt clock).attemptsMade ≤ attempt + fuel := by
  intro fuel
  induction fuel with
  | zero =>
    intro attempt clock
    simp [pmLoop]
  | succ n ih =>
    intro attempt clock
    rw [pmLoop]
    cases h : oc attempt with
    | ok s u t => simp
    | storageError d => simp
    | transportError d =>
      by_cases h2 : attempt = 2
      · simp [h2]
        omega
      · simp only [if_neg h2]
        have := ih (attempt + 1) (clock + d + 2 ^ attempt)
        simp
        omega

/-- C4: the download loop makes at most 3 attempts; when attempts 1 and 2
fail with transport errors the backoff sleeps observed are exactly 1 unit
(before attempt 2) and 2 units (before attempt 3), i.e. `2^(n-2)` before
attempt `n`; a storage-write failure ends the loop immediately — on
attempt 1 the whole call stops after 1 attempt with no sleep, and after a
retried transport failure a storage failure on attempt 2 stops the call
at 2 attempts with only the single 1-unit sleep already taken. -/
theorem c4_retry_backoff_policy (oc : Nat → AttemptOutcome) :
    (process_month oc).attemptsMade ≤ 3 ∧
    (∀ d0 d1, oc 0 = .transportError d0 → oc 1 = .transportError d1 →
      (process_month oc).sleeps = [1, 2]) ∧
    (∀ s, oc 0 = .storageError s →
      process_month oc = ⟨false, [⟨s, 0, 0, false⟩], [], 1⟩) ∧
    (∀ d0 s, oc 0 = .transportError d0 → oc 1 = .storageError s →
      (process_month oc).attemptsMade = 2 ∧ (process_month oc).sleeps = [1]) := by
  refine ⟨?_, ?_, ?_, ?_⟩
  · exact pmLoop_attempts_le oc 3 0 0
  · intro d0 d1 h0 h1
    cases h2 : oc 2 with
    | ok s u t => simp [process_month, pmLoop, h0, h1, h2]
    | storageError s => simp [process_month, pmLoop, h0, h1, h2]
    | transportError d2 => simp [process_month, pmLoop, h0, h1, h2]
  · intro s h0
    simp [process_month, pmLoop, h0]
  · intro d0 s h0 h1
    simp [process_month, pmLoop, h0, h1]

/-- Witness for C4: the three conditional parts instantiated in concrete
worlds (all-transport failures; storage failure on attempt 1; transport
then storage failure). -/
theorem c4_witness :
    (process_month (fun n => .transportError (n + 5))).sleeps = [1, 2] ∧
    process_month ocStorageFirst = ⟨false, [⟨9, 0, 0, false⟩], [], 1⟩ ∧
    ((process_month ocMix).attemptsMade = 2 ∧ (process_month ocMix).sleeps = [1]) :=
  ⟨(c4_retry_backoff_policy (fun n => .transportError (n + 5))).2.1 5 6 rfl rfl,
   (c4_retry_backoff_policy ocStorageFirst).2.2.1 9 rfl,
   (c4_retry_backoff_policy ocMix).2.2.2 4 9 rfl rfl⟩

/-- C3 counterexample: a 201 response (inside the 2xx range) whose JSON
body carries `run_id = 42` is nevertheless treated as a hard failure by
`trigger_databricks_job`, because the code tests `status_code == 200`
exactly — the claim as stated is false. -/
theorem c3_counterexample :
    (200 ≤ 201 ∧ 201 < 300) ∧
    trigger_databricks_job (.ok "token") ⟨201, some 42, "run started"⟩ =
      .error (apiErrMsg 201 "run started") ∧
    trigger_databricks_job (.ok "token") ⟨201, some 42, "run started"⟩ ≠
      .ok (some 42) := by
  refine ⟨by decide, rfl, ?_⟩
  intro h
  exact Except.noConfusion h

/-- C3 amended: with a retrieved credential, `trigger_databricks_job`
succeeds and returns the run identifier exactly when the response status
is 200; any other status — including other 2xx statuses — is a hard
failure carrying the response status and body. -/
theorem c3_status_200_exact (tok : String) (resp : ApiResponse) :
    (resp.status = 200 → trigger_databricks_job (.ok tok) resp = .ok resp.runId) ∧
    (resp.status ≠ 200 →
      trigger_databricks_job (.ok tok) resp = .error (apiErrMsg resp.status resp.text)) := by
  constructor
  · intro h
    simp [trigger_databricks_job, get_databricks_token, h]
  · intro h
    simp [trigger_databricks_job, get_databricks_token, h]

/-- Witness for C3 (amended) at a 200 and a 500 response. -/
theorem c3_witness :
    trigger_databricks_job (.ok "t") ⟨200, some 7, "x"⟩ = .ok (some 7) ∧
    trigger_databricks_job (.ok "t") ⟨500, some 7, "x"⟩ = .error (apiErrMsg 500 "x") :=
  ⟨(c3_status_200_exact "t" ⟨200, some 7, "x"⟩).1 rfl,
   (c3_status_200_exact "t" ⟨500, some 7, "x"⟩).2 (by decide)⟩

/-- C5: every validation rejection produces a result without side
effects — zero credential fetches, zero API calls, zero metrics:
a missing or empty bucket/key gives a 400; a key lacking the
`yellow_tripdata` marker or the `.parquet` extension gives a 200 no-op;
a key without a `year=DDDD` or `month=DD` segment gives a 400. -/
theorem c5_validation_rejections (ev : TriggerEvent) (s : SecretFetch) (r : ApiResponse) :
    (truthy ev.bucket = false ∨ truthy ev.key = false →
      trigger_handler ev s r = ⟨400, .invalidEvent, 0, 0, []⟩) ∧
    (truthy ev.bucket = true → truthy ev.key = true →
      (containsPat ("yellow_tripdata".data) ((ev.key.getD "").data) &&
        endsParquet ((ev.key.getD "").data)) = false →
      trigger_handler ev s r = ⟨200, .notYellow, 0, 0, []⟩) ∧
    (truthy ev.bucket = true → truthy ev.key = true →
      containsPat ("yellow_tripdata".data) ((ev.key.getD "").data) = true →
      endsParquet ((ev.key.getD "").data) = true →
      (searchYear ((ev.key.getD "").data) = none ∨
        searchMonth ((ev.key.getD "").data) = none) →
      trigger_handler ev s r = ⟨400, .noPeriod, 0, 0, []⟩) := by
  refine ⟨?_, ?_, ?_⟩
  · rintro (h | h) <;> simp [trigger_handler, h]
  · intro hb hk h
    rw [Bool.and_eq_false_iff] at h
    rcases h with h | h <;> simp [trigger_handler, hb, hk, h]
  · intro hb hk hc he h
    rcases h with h | h
    · cases hm : searchMonth ((ev.key.getD "").data) <;>
        simp [trigger_handler, hb, hk, hc, he, h, hm]
    · cases hy : searchYear ((ev.key.getD "").data) <;>
        simp [trigger_handler, hb, hk, hc, he, h, hy]

/-- Witness for C5: the three rejection cases at concrete notifications
(missing key; a non-matching file; a matching file without period
segments). -/
theorem c5_witness :
    trigger_handler ⟨some "b", none⟩ (.ok "t") ⟨200, none, ""⟩ =
      ⟨400, .invalidEvent, 0, 0, []⟩ ∧
    trigger_handler ⟨some "b", some "foo.txt"⟩ (.ok "t") ⟨200, none, ""⟩ =
      ⟨200, .notYellow, 0, 0, []⟩ ∧
    trigger_handler ⟨some "b", some "data/yellow_tripdata_2024-01.parquet"⟩
        (.ok "t") ⟨200, none, ""⟩ =
      ⟨400, .noPeriod, 0, 0, []⟩ :=
  ⟨(c5_validation_rejections ⟨some "b", none⟩ (.ok "t") ⟨200, none, ""⟩).1
      (Or.inr rfl),
   (c5_validation_rejections ⟨some "b", some "foo.txt"⟩ (.ok "t") ⟨200, none, ""⟩).2.1
      rfl rfl (by decide),
   (c5_validation_rejections ⟨some "b", some "data/yellow_tripdata_2024-01.parquet"⟩
      (.ok "t") ⟨200, none, ""⟩).2.2
      rfl rfl (by decide) (by decide) (Or.inl (by decide))⟩

/-- C10: a 200 response whose JSON body has no `run_id` field still
yields a 200 success result with a null `run_id` and the `JobTriggered`
metric; the absent identifier is not treated as a failure. -/
theorem c10_missing_run_id_success (tok text : String) :
    trigger_handler evOK (.ok tok) ⟨200, none, text⟩ =
      ⟨200, .triggered none "2024" "01", 1, 1, [jobTriggeredMetric "2024" "01"]⟩ := rfl

/-- The truncated credential-failure error string always starts with
`'F'` (from the fixed text `Failed to retrieve Databricks token: `). -/
theorem truncate50_cred_head (msg : String) :
    (truncate50 (credentialErrMsg msg)).data.head? = some 'F' := rfl

/-- The truncated API-failure error string always starts with `'D'`
(from the fixed text `Databricks API error: `). -/
theorem truncate50_api_head (st : Nat) (text : String) :
    (truncate50 (apiErrMsg st text)).data.head? = some 'D' := rfl

/-- The two truncated error strings can never coincide: their fixed
leading characters differ. -/
theorem truncate50_cred_ne_api (msg text : String) (st : Nat) :
    truncate50 (credentialErrMsg msg) ≠ truncate50 (apiErrMsg st text) := by
  intro h
  have h2 : some 'F' = some 'D' := by
    rw [← truncate50_cred_head msg, h, truncate50_api_head]
  exact absurd h2 (by decide)

/-- On the concrete well-formed notification `evOK`, all validations pass
and the handler's result is decided by `trigger_databricks_job` alone. -/
theorem trigger_handler_evOK (s : SecretFetch) (r : ApiResponse) :
    trigger_handler evOK s r =
      match trigger_databricks_job s r with
      | .ok rid =>
          ⟨200, .triggered rid "2024" "01", 1, 1, [jobTriggeredMetric "2024" "01"]⟩
      | .error e =>
          ⟨500, .failed e, 1, apiAttempts s, [jobTriggerFailedMetric e]⟩ := rfl

/-- C9: on a valid notification, a credential-retrieval failure and a
downstream-API failure each emit exactly one `JobTriggerFailed` metric,
and the two emissions always have distinct identities: their `Error`
dimension values (the truncated error strings) can never coincide, so the
two failure causes are attributable separately. -/
theorem c9_distinct_failure_metrics (msg tok text : String) (st : Nat)
    (rid : Option Nat) (r : ApiResponse) (h : st ≠ 200) :
    (trigger_handler evOK (.fails msg) r).metrics =
      [jobTriggerFailedMetric (credentialErrMsg msg)] ∧
    (trigger_handler evOK (.ok tok) ⟨st, rid, text⟩).metrics =
      [jobTriggerFailedMetric (apiErrMsg st text)] ∧
    jobTriggerFailedMetric (credentialErrMsg msg) ≠
      jobTriggerFailedMetric (apiErrMsg st text) := by
  refine ⟨rfl, ?_, ?_⟩
  · have htj : trigger_databricks_job (.ok tok) ⟨st, rid, text⟩ =
        .error (apiErrMsg st text) := by
      simp [trigger_databricks_job, get_databricks_token, h]
    rw [trigger_handler_evOK, htj]
  · intro h2
    have h3 : truncate50 (credentialErrMsg msg) = truncate50 (apiErrMsg st text) := by
      simpa [jobTriggerFailedMetric, Metric.mk.injEq] using h2
    exact truncate50_cred_ne_api msg text st h3

/-- Witness for C9 at a concrete credential failure and a concrete 500
API response. -/
theorem c9_witness :
    (trigger_handler evOK (.fails "boom") ⟨500, none, "err"⟩).metrics =
      [jobTriggerFailedMetric (credentialErrMsg "boom")] ∧
    (trigger_handler evOK (.ok "t") ⟨500, none, "err"⟩).metrics =
      [jobTriggerFailedMetric (apiErrMsg 500 "err")] ∧
    jobTriggerFailedMetric (credentialErrMsg "boom") ≠
      jobTriggerFailedMetric (apiErrMsg 500 "err") :=
  c9_distinct_failure_metrics "boom" "t" "err" 500 none ⟨500, none, "err"⟩ (by decide)

/-- Unfolding of `natStrAux` on one-digit numbers. -/
theorem natStrAux_lt10 {n : Nat} (h : n < 10) : natStrAux n = [Nat.digitChar n] := by
  unfold natStrAux
  simp [h]

/-- Unfolding of `natStrAux` on multi-digit numbers. -/
theorem natStrAux_ge10 {n : Nat} (h : 10 ≤ n) :
    natStrAux n = natStrAux (n / 10) ++ [Nat.digitChar (n % 10)] := by
  conv_lhs => unfold natStrAux
  simp [Nat.not_lt.2 h]

/-- Code-point value of the decimal digit characters. -/
theorem digitChar_toNat : ∀ d : Nat, d < 10 → (Nat.digitChar d).toNat = 48 + d := by
  decide

/-- Appending one digit multiplies the value by ten. -/
theorem digitsVal_append (l : List Char) (c : Char) :
    digitsVal (l ++ [c]) = digitsVal l * 10 + (c.toNat - 48) := by
  simp [digitsVal, List.foldl_append]

/-- `digitsVal` is a left inverse of `natStrAux`: reading the decimal
string of `n` back gives `n`. -/
theorem digitsVal_natStrAux : ∀ n : Nat, digitsVal (natStrAux n) = n := by
  intro n
  induction n using Nat.strong_induction_on with
  | _ n ih =>
    by_cases h : n < 10
    · rw [natStrAux_lt10 h]
      simp [digitsVal, digitChar_toNat n h]
    · have h10 : 10 ≤ n := Nat.not_lt.1 h
      rw [natStrAux_ge10 h10, digitsVal_append,
        ih (n / 10) (Nat.div_lt_self (by omega) (by omega)),
        digitChar_toNat (n % 10) (Nat.mod_lt n (by omega))]
      omega

/-- One-digit numbers print with one character. -/
theorem natStrAux_len1 {n : Nat} (h : n < 10) : (natStrAux n).length = 1 := by
  rw [natStrAux_lt10 h]
  rfl

/-- Two-digit numbers print with two characters. -/
theorem natStrAux_len2 {n : Nat} (h1 : 10 ≤ n) (h2 : n ≤ 99) :
    (natStrAux n).length = 2 := by
  rw [natStrAux_ge10 h1]
  simp [natStrAux_len1 (show n / 10 < 10 by omega)]

/-- Three-digit numbers print with three characters. -/
theorem natStrAux_len3 {n : Nat} (h1 : 100 ≤ n) (h2 : n ≤ 999) :
    (natStrAux n).length = 3 := by
  rw [natStrAux_ge10 (by omega)]
  simp [natStrAux_len2 (show 10 ≤ n / 10 by omega) (show n / 10 ≤ 99 by omega)]

/-- Four-digit numbers print with four characters. -/
theorem natStrAux_len4 {n : Nat} (h1 : 1000 ≤ n) (h2 : n ≤ 9999) :
    (natStrAux n).length = 4 := by
  rw [natStrAux_ge10 (by omega)]
  simp [natStrAux_len3 (show 100 ≤ n / 10 by omega) (show n / 10 ≤ 999 by omega)]

/-- After `zfill(2)`, the month component always has two characters. -/
theorem monthChars_length {m : Nat} (h : m ≤ 99) : (monthChars m).length = 2 := by
  by_cases h1 : m < 10
  · simp [monthChars, natStrAux_len1 h1]
  · simp [monthChars, natStrAux_len2 (Nat.not_lt.1 h1) h]

/-- Reading the zero-padded month component back gives the month. -/
theorem digitsVal_monthChars {m : Nat} (h : m ≤ 99) :
    digitsVal (monthChars m) = m := by
  by_cases h1 : m < 10
  · rw [monthChars, natStrAux_len1 h1, natStrAux_lt10 h1]
    simp [digitsVal, List.foldl, digitChar_toNat m h1]
  · rw [monthChars, natStrAux_len2 (Nat.not_lt.1 h1) h]
    simp [digitsVal_natStrAux]

/-- `String.append` acts as list append on the character data. -/
theorem sdata_append (a b : String) : (a ++ b).data = a.data ++ b.data := rfl

/-- The characters of a period's storage key, in right-nested normal
form: fixed literal segments around the year and month components. -/
theorem periodKey_data (pre : String) (y m : Nat) :
    (periodKey pre y m).data =
      pre.data ++ ("year=".data ++ (yearChars y ++ ("/month=".data ++ (monthChars m ++
        ("/".data ++ ("yellow_tripdata_".data ++ (yearChars y ++ ("-".data ++
          (monthChars m ++ ".parquet".data))))))))) := by
  simp [periodKey, s3_key, s3_file_name, natStr, zfill, sdata_append,
    yearChars, monthChars, List.append_assoc]

/-- C8: for valid periods (four-digit year, month 1-12), the storage-key
function is deterministic and injective: two periods map to the same key
under the same key prefix exactly when they are the same period. -/
theorem c8_key_deterministic_injective (pre : String) (y₁ m₁ y₂ m₂ : Nat)
    (hy₁ : 1000 ≤ y₁ ∧ y₁ ≤ 9999) (hy₂ : 1000 ≤ y₂ ∧ y₂ ≤ 9999)
    (hm₁ : 1 ≤ m₁ ∧ m₁ ≤ 12) (hm₂ : 1 ≤ m₂ ∧ m₂ ≤ 12) :
    periodKey pre y₁ m₁ = periodKey pre y₂ m₂ ↔ y₁ = y₂ ∧ m₁ = m₂ := by
  constructor
  · intro h
    have hd : (periodKey pre y₁ m₁).data = (periodKey pre y₂ m₂).data :=
      congrArg String.data h
    rw [periodKey_data, periodKey_data] at hd
    have hd2 := List.append_cancel_left hd
    have hd3 := List.append_cancel_left hd2
    have hy := List.append_inj hd3
      ((natStrAux_len4 hy₁.1 hy₁.2).trans (natStrAux_len4 hy₂.1 hy₂.2).symm)
    have hyv : y₁ = y₂ := by
      have := congrArg digitsVal hy.1
      rwa [yearChars, yearChars, digitsVal_natStrAux, digitsVal_natStrAux] at this
    have hd4 := List.append_cancel_left hy.2
    have hm := List.append_inj hd4
      ((monthChars_length (by omega)).trans (monthChars_length (by omega)).symm)
    have hmv : m₁ = m₂ := by
      have := congrArg digitsVal hm.1
      rwa [digitsVal_monthChars (by omega), digitsVal_monthChars (by omega)] at this
    exact ⟨hyv, hmv⟩
  · rintro ⟨rfl, rfl⟩
    rfl

/-- Witness for C8 at concrete periods: equal keys force equal periods,
and re-computing the key for one period yields the same key. -/
theorem c8_witness :
    (periodKey "nyctaxi/raw/" 2024 1 = periodKey "nyctaxi/raw/" 2024 2 ↔
      2024 = 2024 ∧ 1 = 2) ∧
    (periodKey "nyctaxi/raw/" 2024 7 = periodKey "nyctaxi/raw/" 2024 7 ↔
      2024 = 2024 ∧ 7 = 7) :=
  ⟨c8_key_deterministic_injective "nyctaxi/raw/" 2024 1 2024 2
      (by decide) (by decide) (by decide) (by decide),
   c8_key_deterministic_injective "nyctaxi/raw/" 2024 7 2024 7
      (by decide) (by decide) (by decide) (by decide)⟩
